import Mathlib

/-!
Shallow embedding of pol-core/clib/message_queue.h (template class
Pol::Clib::message_queue<Message>).

The C++ class holds a std::list buffer, a mutex, a condition variable and a
bool cancel flag.  Under the mutex every operation is sequential, so the
observable state is modelled as the pair of the buffer contents and the flag.
The blocking pop operations run the loop

  while (queue empty and not cancel) wait;
  if (cancel) throw Canceled();
  take from the front (or splice the whole buffer);

which is modelled as a total function into a result type with three
outcomes: still blocked in the wait (queue empty and flag clear, and no
producer runs in a sequential trace), the Canceled throw, or a successful
pop carrying the value(s) and the post state.
-/

namespace Pol
namespace Clib

/-- Observable state of message_queue<Message>: the std::list buffer content
in front-to-back order, and the bool cancel flag. -/
structure message_queue (α : Type) where
  _queue : List α
  _cancel : Bool
deriving DecidableEq

/-- Outcome of pop_wait(Message*): either the caller is still blocked inside
the condition-variable wait, or the Canceled exception is thrown (carrying
the state at the throw), or a message is popped from the front (carrying the
message and the post state). -/
inductive PopResult (α : Type) where
  | blocked : PopResult α
  | canceled : message_queue α → PopResult α
  | popped : α → message_queue α → PopResult α
deriving DecidableEq

/-- Outcome of pop_wait(std::list<Message>*): blocked, the Canceled throw
(carrying the state and the untouched caller list), or success carrying the
caller list after the splice and the post state. -/
inductive BatchPopResult (α : Type) where
  | blocked : BatchPopResult α
  | canceled : message_queue α → List α → BatchPopResult α
  | popped : List α → message_queue α → BatchPopResult α
deriving DecidableEq

namespace message_queue

variable {α : Type}

/-- push(Message const&): builds a one-element temporary list outside the
lock, then splices it at the end of the buffer and notifies one waiter. -/
def push (q : message_queue α) (msg : α) : message_queue α :=
  ⟨q._queue ++ [msg], q._cancel⟩

/-- push_move(Message&&): same buffer effect as push, via emplace_back of the
moved message and a splice at the end. -/
def push_move (q : message_queue α) (msg : α) : message_queue α :=
  ⟨q._queue ++ [msg], q._cancel⟩

/-- push(std::list<Message>&): splices the whole caller list at the end of
the buffer under the lock; std::list::splice leaves the source list empty,
returned here as the second component. -/
def push_list (q : message_queue α) (msg_list : List α) :
    message_queue α × List α :=
  (⟨q._queue ++ msg_list, q._cancel⟩, [])

/-- empty(): reads whether the buffer is empty under the lock; const member,
no state change. -/
def empty (q : message_queue α) : Bool :=
  q._queue.isEmpty

/-- size(): reads the buffer length under the lock; const member, no state
change. -/
def size (q : message_queue α) : Nat :=
  q._queue.length

/-- try_pop(Message*): under the lock, returns false (none) on an empty
buffer leaving the state untouched, otherwise moves the front element out,
pops it and returns true (some).  It never waits and never throws: its
result type has no blocked and no canceled outcome, and the flag is not
read. -/
def try_pop (q : message_queue α) : Option α × message_queue α :=
  match q._queue with
  | [] => (none, q)
  | x :: xs => (some x, ⟨xs, q._cancel⟩)

/-- pop_wait(Message*): waits while the buffer is empty and the flag is
clear; at wait exit, throws Canceled whenever the flag is set, otherwise
moves the front element out and pops it. -/
def pop_wait (q : message_queue α) : PopResult α :=
  match q._queue, q._cancel with
  | [], false => PopResult.blocked
  | [], true => PopResult.canceled q
  | _ :: _, true => PopResult.canceled q
  | x :: xs, false => PopResult.popped x ⟨xs, false⟩

/-- pop_wait(std::list<Message>*): same wait loop and Canceled throw as the
single-element pop_wait; on success splices the whole buffer onto the end of
the caller list, leaving the buffer empty. -/
def pop_wait_list (q : message_queue α) (msgs : List α) : BatchPopResult α :=
  match q._queue, q._cancel with
  | [], false => BatchPopResult.blocked
  | [], true => BatchPopResult.canceled q msgs
  | _ :: _, true => BatchPopResult.canceled q msgs
  | x :: xs, false => BatchPopResult.popped (msgs ++ x :: xs) ⟨[], false⟩

/-- pop_remaining(std::list<Message>*): splices the whole buffer onto the end
of the caller list without taking the lock. -/
def pop_remaining (q : message_queue α) (msgs : List α) :
    message_queue α × List α :=
  (⟨[], q._cancel⟩, msgs ++ q._queue)

/-- cancel(): under the lock, sets the flag and calls notify_all on the
condition variable.  The notify_all effect on blocked waiters is modelled by
cancel_sys below; on the observable state the effect is only the flag. -/
def cancel (q : message_queue α) : message_queue α :=
  ⟨q._queue, true⟩

/-- Folds push over a list of messages: the sequence of single-element
pushes p1, p2, ..., pn with no interleaved pops. -/
def push_seq (q : message_queue α) (ms : List α) : message_queue α :=
  ms.foldl push q

/-- Runs try_pop n times, collecting the successfully popped messages in
order; stops early if a try_pop returns none. -/
def try_pops : Nat → message_queue α → List α × message_queue α
  | 0, q => ([], q)
  | Nat.succ n, q =>
    match try_pop q with
    | (none, q1) => ([], q1)
    | (some x, q1) =>
      let r := try_pops n q1
      (x :: r.1, r.2)

/-- Runs pop_wait n times, collecting the popped messages in order; stops if
a pop_wait blocks or throws Canceled. -/
def pop_waits : Nat → message_queue α → List α × message_queue α
  | 0, q => ([], q)
  | Nat.succ n, q =>
    match pop_wait q with
    | PopResult.popped x q1 =>
      let r := pop_waits n q1
      (x :: r.1, r.2)
    | _ => ([], q)

end message_queue

/-- True exactly on the blocked outcome of pop_wait. -/
def PopResult.is_blocked : PopResult α → Bool
  | PopResult.blocked => true
  | _ => false

/-- A queue together with the number of threads currently blocked inside the
condition-variable wait of pop_wait. -/
structure sys_state (α : Type) where
  mq : message_queue α
  waiters : Nat
deriving DecidableEq

/-- System-level effect of cancel(): the flag is set and notify_all wakes
every blocked waiter; each woken waiter re-evaluates the wait loop of
pop_wait on the new state, and only those whose outcome is blocked return to
the wait. -/
def cancel_sys (s : sys_state α) : sys_state α × List (PopResult α) :=
  let q1 := message_queue.cancel s.mq
  let results := List.replicate s.waiters (message_queue.pop_wait q1)
  (⟨q1, (results.filter (fun r => r.is_blocked)).length⟩, results)

/-! Helper lemmas. -/

theorem push_seq_spec (ms : List α) (q : message_queue α) :
    message_queue.push_seq q ms = ⟨q._queue ++ ms, q._cancel⟩ := by
  induction ms generalizing q with
  | nil => simp [message_queue.push_seq]
  | cons x xs ih =>
    simp [message_queue.push_seq, message_queue.push] at ih ⊢
    rw [ih]
    simp

theorem try_pops_full (l : List α) (c : Bool) :
    message_queue.try_pops l.length ⟨l, c⟩ = (l, ⟨[], c⟩) := by
  induction l with
  | nil => rfl
  | cons x xs ih =>
    simp [message_queue.try_pops, message_queue.try_pop, ih]

theorem pop_waits_full (l : List α) :
    message_queue.pop_waits l.length ⟨l, false⟩ = (l, ⟨[], false⟩) := by
  induction l with
  | nil => rfl
  | cons x xs ih =>
    simp [message_queue.pop_waits, message_queue.pop_wait, ih]

/-! Claim theorems. -/

/-- Claim C1, counterexample: on the queue with buffer [3] and the cancel
flag set, pop_wait throws Canceled instead of popping 3.  The wait loop
exits because the buffer is non-empty, but the following check throws as
soon as the flag is set, without draining the remaining element. -/
theorem C1_counterexample :
    message_queue.pop_wait (⟨[3], true⟩ : message_queue Nat)
      = PopResult.canceled ⟨[3], true⟩ ∧
    message_queue.pop_wait (⟨[3], true⟩ : message_queue Nat)
      ≠ PopResult.popped 3 ⟨[], true⟩ := by
  constructor
  · rfl
  · decide

/-- Claim C1, amended: once the cancel flag is set, pop_wait throws Canceled
regardless of the buffer contents; a cancelled queue never drains remaining
elements through pop_wait. -/
theorem C1_pop_wait_cancelled (q : message_queue α) (h : q._cancel = true) :
    message_queue.pop_wait q = PopResult.canceled q := by
  obtain ⟨l, c⟩ := q
  cases c with
  | false => simp at h
  | true => cases l <;> rfl

/-- Witness for C1_pop_wait_cancelled at the queue with buffer [3] and the
flag set. -/
theorem C1_pop_wait_cancelled_witness :
    (⟨[3], true⟩ : message_queue Nat)._cancel = true ∧
    message_queue.pop_wait (⟨[3], true⟩ : message_queue Nat)
      = PopResult.canceled ⟨[3], true⟩ :=
  ⟨rfl, C1_pop_wait_cancelled ⟨[3], true⟩ rfl⟩

/-- Claim C2: pushing p1, ..., pn in order onto an empty queue with no
interleaved pops and then popping n times returns p1, ..., pn in that order,
both through try_pop and through pop_wait (the latter on a non-cancelled
queue, where pop_wait succeeds). -/
theorem C2_fifo_order (ms : List α) (c : Bool) :
    (message_queue.try_pops ms.length
      (message_queue.push_seq ⟨[], c⟩ ms)).1 = ms ∧
    (message_queue.pop_waits ms.length
      (message_queue.push_seq ⟨[], false⟩ ms)).1 = ms := by
  constructor
  · rw [push_seq_spec]
    simp [try_pops_full]
  · rw [push_seq_spec]
    simp [pop_waits_full]

/-- Claim C3: try_pop returns none on an empty buffer leaving the state
unchanged, otherwise removes and returns the head element; it is a total
function whose result type has no blocked and no canceled outcome, and its
returned value and buffer do not depend on the cancel flag. -/
theorem C3_try_pop_spec (q : message_queue α) :
    ((message_queue.try_pop q).1 = none ↔ q._queue = []) ∧
    (q._queue = [] → message_queue.try_pop q = (none, q)) ∧
    (∀ x xs, q._queue = x :: xs →
      message_queue.try_pop q = (some x, ⟨xs, q._cancel⟩)) ∧
    (∀ b, (message_queue.try_pop ⟨q._queue, b⟩).1
        = (message_queue.try_pop q).1 ∧
      (message_queue.try_pop ⟨q._queue, b⟩).2._queue
        = (message_queue.try_pop q).2._queue) := by
  obtain ⟨l, c⟩ := q
  cases l <;>
    simp [message_queue.try_pop]

/-- Witness for C3_try_pop_spec at the cancelled queue with buffer [7, 8]. -/
theorem C3_try_pop_spec_witness :
    message_queue.try_pop (⟨[7, 8], true⟩ : message_queue Nat)
      = (some 7, ⟨[8], true⟩) ∧
    (message_queue.try_pop (⟨[7, 8], false⟩ : message_queue Nat)).1
      = (message_queue.try_pop (⟨[7, 8], true⟩ : message_queue Nat)).1 :=
  ⟨(C3_try_pop_spec ⟨[7, 8], true⟩).2.2.1 7 [8] rfl,
   ((C3_try_pop_spec ⟨[7, 8], true⟩).2.2.2 false).1⟩

/-- Claim C4: push of a whole list splices the entire sequence at the tail
of the buffer in order, preserves the flag, and leaves the caller list
empty. -/
theorem C4_push_batch (q : message_queue α) (ms : List α) :
    (message_queue.push_list q ms).1._queue = q._queue ++ ms ∧
    (message_queue.push_list q ms).1._cancel = q._cancel ∧
    (message_queue.push_list q ms).2 = [] :=
  ⟨rfl, rfl, rfl⟩

/-- Claim C5: whenever batch pop_wait succeeds, the caller list receives the
entire buffer contents spliced at its end in FIFO order, the buffer is left
empty, and the flag is unchanged. -/
theorem C5_pop_wait_batch (q : message_queue α) (msgs res : List α)
    (q1 : message_queue α)
    (h : message_queue.pop_wait_list q msgs = BatchPopResult.popped res q1) :
    res = msgs ++ q._queue ∧ q1._queue = [] ∧ q1._cancel = q._cancel := by
  obtain ⟨l, c⟩ := q
  cases l <;> cases c <;>
    simp [message_queue.pop_wait_list] at h
  obtain ⟨h1, h2⟩ := h
  subst h1
  subst h2
  exact ⟨rfl, rfl, rfl⟩

/-- Witness for C5_pop_wait_batch: on the queue with buffer [1, 2] and the
flag clear, with an empty caller list, the batch pop succeeds with [1, 2]
and leaves the buffer empty. -/
theorem C5_pop_wait_batch_witness :
    ([1, 2] : List Nat) = [] ++ [1, 2] ∧
    (⟨[], false⟩ : message_queue Nat)._queue = [] ∧
    (⟨[], false⟩ : message_queue Nat)._cancel
      = (⟨[1, 2], false⟩ : message_queue Nat)._cancel :=
  C5_pop_wait_batch ⟨[1, 2], false⟩ [] [1, 2] ⟨[], false⟩ rfl

/-- Claim C6: on a queue whose cancel flag is set, push still appends at the
tail, the flag stays set, and the pushed element is retrievable through
try_pop: popping every element yields the old contents followed by the new
element. -/
theorem C6_push_after_cancel (q : message_queue α) (x : α)
    (h : q._cancel = true) :
    (message_queue.push q x)._cancel = true ∧
    (message_queue.push q x)._queue = q._queue ++ [x] ∧
    (message_queue.try_pops (q._queue.length + 1)
      (message_queue.push q x)).1 = q._queue ++ [x] := by
  refine ⟨by simp [message_queue.push, h], rfl, ?_⟩
  obtain ⟨l, c⟩ := q
  have hlen : l.length + 1 = (l ++ [x]).length := by simp
  simp only [message_queue.push, hlen]
  rw [try_pops_full]

/-- Witness for C6_push_after_cancel: pushing 9 onto the cancelled queue
with buffer [5]. -/
theorem C6_push_after_cancel_witness :
    (message_queue.push (⟨[5], true⟩ : message_queue Nat) 9)._cancel = true ∧
    (message_queue.push (⟨[5], true⟩ : message_queue Nat) 9)._queue
      = [5] ++ [9] ∧
    (message_queue.try_pops ([5].length + 1)
      (message_queue.push (⟨[5], true⟩ : message_queue Nat) 9)).1
      = [5] ++ [9] :=
  C6_push_after_cancel ⟨[5], true⟩ 9 rfl

/-- Claim C7: cancel is idempotent; a second cancel leaves the queue state
(buffer and flag) exactly as after the first. -/
theorem C7_cancel_idempotent (q : message_queue α) :
    message_queue.cancel (message_queue.cancel q) = message_queue.cancel q :=
  rfl

/-- Claim C8: the cancel flag is monotonic; every operation started on a
state with the flag set ends on a state with the flag set (the blocking pops
throw Canceled carrying the unchanged state; empty and size are const reads
with no state effect). -/
theorem C8_cancel_monotonic (q : message_queue α) (x : α) (ms : List α)
    (h : q._cancel = true) :
    (message_queue.push q x)._cancel = true ∧
    (message_queue.push_move q x)._cancel = true ∧
    ((message_queue.push_list q ms).1)._cancel = true ∧
    ((message_queue.try_pop q).2)._cancel = true ∧
    message_queue.pop_wait q = PopResult.canceled q ∧
    message_queue.pop_wait_list q ms = BatchPopResult.canceled q ms ∧
    ((message_queue.pop_remaining q ms).1)._cancel = true ∧
    (message_queue.cancel q)._cancel = true := by
  obtain ⟨l, c⟩ := q
  subst h
  cases l <;>
    simp [message_queue.push, message_queue.push_move,
      message_queue.push_list, message_queue.try_pop,
      message_queue.pop_wait, message_queue.pop_wait_list,
      message_queue.pop_remaining, message_queue.cancel]

/-- Witness for C8_cancel_monotonic on the cancelled queue with buffer [4],
pushing 6 and batch list [1]. -/
theorem C8_cancel_monotonic_witness :
    (message_queue.push (⟨[4], true⟩ : message_queue Nat) 6)._cancel = true ∧
    (message_queue.push_move (⟨[4], true⟩ : message_queue Nat) 6)._cancel
      = true ∧
    ((message_queue.push_list (⟨[4], true⟩ : message_queue Nat) [1]).1)._cancel
      = true ∧
    ((message_queue.try_pop (⟨[4], true⟩ : message_queue Nat)).2)._cancel
      = true ∧
    message_queue.pop_wait (⟨[4], true⟩ : message_queue Nat)
      = PopResult.canceled ⟨[4], true⟩ ∧
    message_queue.pop_wait_list (⟨[4], true⟩ : message_queue Nat) [1]
      = BatchPopResult.canceled ⟨[4], true⟩ [1] ∧
    ((message_queue.pop_remaining (⟨[4], true⟩ : message_queue Nat) [1]).1)._cancel
      = true ∧
    (message_queue.cancel (⟨[4], true⟩ : message_queue Nat))._cancel = true :=
  C8_cancel_monotonic ⟨[4], true⟩ 6 [1] rfl

/-- Claim C9: with K threads blocked inside the pop_wait wait on an empty
queue, one cancel call wakes all of them through notify_all; every one of
the K resumed waiters exits its wait loop and returns the Canceled signal,
and none remains blocked. -/
theorem C9_cancel_wakes_all (s : sys_state α) (h : s.mq._queue = []) :
    (cancel_sys s).1.waiters = 0 ∧
    (cancel_sys s).2.length = s.waiters ∧
    ∀ r ∈ (cancel_sys s).2,
      r = PopResult.canceled (message_queue.cancel s.mq) := by
  obtain ⟨⟨l, c⟩, k⟩ := s
  simp only at h
  subst h
  refine ⟨?_, by simp [cancel_sys], ?_⟩
  · simp [cancel_sys, message_queue.cancel, message_queue.pop_wait,
      PopResult.is_blocked, List.filter_replicate]
  · intro r hr
    simp [cancel_sys, message_queue.cancel, message_queue.pop_wait] at hr ⊢
    exact hr.2

/-- Witness for C9_cancel_wakes_all with three waiters blocked on the empty
non-cancelled queue. -/
theorem C9_cancel_wakes_all_witness :
    (cancel_sys (⟨⟨[], false⟩, 3⟩ : sys_state Nat)).1.waiters = 0 ∧
    (cancel_sys (⟨⟨[], false⟩, 3⟩ : sys_state Nat)).2.length = 3 ∧
    ∀ r ∈ (cancel_sys (⟨⟨[], false⟩, 3⟩ : sys_state Nat)).2,
      r = PopResult.canceled
        (message_queue.cancel (⟨[], false⟩ : message_queue Nat)) :=
  C9_cancel_wakes_all ⟨⟨[], false⟩, 3⟩ rfl

/-- Claim C10: whenever pop_wait or batch pop_wait throws Canceled, the
queue state at the throw equals the state at entry, and the caller list of
the batch variant is untouched: no element is removed or lost on the
Canceled path. -/
theorem C10_canceled_atomicity (q q1 : message_queue α)
    (msgs msgs1 : List α) :
    (message_queue.pop_wait q = PopResult.canceled q1 → q1 = q) ∧
    (message_queue.pop_wait_list q msgs
        = BatchPopResult.canceled q1 msgs1 → q1 = q ∧ msgs1 = msgs) := by
  obtain ⟨l, c⟩ := q
  cases l <;> cases c <;>
    constructor <;>
    intro h <;>
    simp [message_queue.pop_wait, message_queue.pop_wait_list] at h <;>
    simp [h]

/-- Witness for C10_canceled_atomicity: the cancelled queue with buffer [2]
throws Canceled from pop_wait and from batch pop_wait with state and caller
list untouched. -/
theorem C10_canceled_atomicity_witness :
    (⟨[2], true⟩ : message_queue Nat) = ⟨[2], true⟩ ∧
    ((⟨[2], true⟩ : message_queue Nat) = ⟨[2], true⟩ ∧
      ([8] : List Nat) = [8]) :=
  ⟨(C10_canceled_atomicity ⟨[2], true⟩ ⟨[2], true⟩ [8] [8]).1 rfl,
   (C10_canceled_atomicity ⟨[2], true⟩ ⟨[2], true⟩ [8] [8]).2 rfl⟩

end Clib
end Pol
